import Mathlib

/-!
# Verification of the supabase-vector-search core

A shallow embedding of the TypeScript core of `krhebbar/supabase-vector-search`:
the dimension validator (`src/embeddings/index.ts`), the retry executor
(`src/utils/retry.ts`), the search manager (single-vector and weighted search
with weight normalization), the batch document insert loop, and the
`match_documents_weighted` SQL scoring pipeline
(`supabase/migrations/001_enable_pgvector.sql`).

JavaScript runtime values that matter to the validator (non-array inputs,
NaN and infinite numbers, non-numeric array elements) are modelled
symbolically; numeric arithmetic is carried out in `ℚ`.
-/

namespace VectorSearch

/-! ## JavaScript value model

`validateEmbeddingDimensions` receives an arbitrary JS value and inspects it
with `Array.isArray`, `typeof val === 'number'` and `isNaN(val)`.  We model
exactly the observations that code makes: a JS number is finite (a rational),
NaN, or one of the two infinities; an array element is a number or a
non-number; the validated value is an array of elements or a non-array. -/

inductive JSNum where
  | finite (q : ℚ)
  | nan
  | inf
  | negInf
deriving DecidableEq

/-- `isNaN(val)` for a JS number `val`. -/
def JSNum.isNaN : JSNum → Bool
  | .nan => true
  | _ => false

/-- `Number.isFinite`-style finiteness (not tested by the source validator;
used to state claims about non-finite components). -/
def JSNum.isFinite : JSNum → Bool
  | .finite _ => true
  | _ => false

inductive JSElem where
  | num (n : JSNum)
  | notNum
deriving DecidableEq

/-- `typeof val === 'number'`. -/
def JSElem.isNumber : JSElem → Bool
  | .num _ => true
  | .notNum => false

/-- `isNaN(val)`, only ever evaluated by the source after the `typeof` check
succeeded (short-circuit `&&`). -/
def JSElem.isNaN : JSElem → Bool
  | .num n => n.isNaN
  | .notNum => false

inductive JSVal where
  | arr (xs : List JSElem)
  | notArr
deriving DecidableEq

/-! ## Error model

`src/types` declares three error classes, each extending `Error` directly:
`EmbeddingError(message, code?)`, `SearchError(message, code?)`,
`ValidationError(message, field?)`.  `EmbeddingError` is *not* a subclass of
`ValidationError` or `SearchError`. -/

inductive EmbeddingErrorCode where
  | invalidEmbeddingType
  | dimensionMismatch
  | invalidEmbeddingValues
deriving DecidableEq

/-- The `code` strings carried by `EmbeddingError` in the source. -/
def EmbeddingErrorCode.codeString : EmbeddingErrorCode → String
  | .invalidEmbeddingType => "INVALID_EMBEDDING_TYPE"
  | .dimensionMismatch => "DIMENSION_MISMATCH"
  | .invalidEmbeddingValues => "INVALID_EMBEDDING_VALUES"

inductive JsError where
  | validationError (message : String) (field : String)
  | searchError (message : String) (code : Option String)
  | embeddingError (message : String) (code : EmbeddingErrorCode)
deriving DecidableEq

def JsError.message : JsError → String
  | .validationError m _ => m
  | .searchError m _ => m
  | .embeddingError m _ => m

/-! ## Dimension validator — `validateEmbeddingDimensions`
(`src/embeddings/index.ts`, lines 237-261)

```ts
if (!Array.isArray(embedding)) throw EmbeddingError('Embedding must be an array', 'INVALID_EMBEDDING_TYPE');
if (embedding.length !== expectedDimensions) throw EmbeddingError(`Expected ... but got ...`, 'DIMENSION_MISMATCH');
if (!embedding.every((val) => typeof val === 'number' && !isNaN(val)))
  throw EmbeddingError('Embedding must contain only valid numbers', 'INVALID_EMBEDDING_VALUES');
```
Returning `none` models the void (no-throw) return. -/

def validateEmbeddingDimensions (embedding : JSVal) (expectedDimensions : ℕ) :
    Option JsError :=
  match embedding with
  | .notArr => some (.embeddingError "Embedding must be an array" .invalidEmbeddingType)
  | .arr xs =>
    if xs.length ≠ expectedDimensions then
      some (.embeddingError
        ("Expected " ++ toString expectedDimensions ++ " dimensions but got "
          ++ toString xs.length) .dimensionMismatch)
    else if xs.all (fun val => val.isNumber && !val.isNaN) then
      none
    else
      some (.embeddingError "Embedding must contain only valid numbers"
        .invalidEmbeddingValues)

/-- The error code (if any) produced by the validator. -/
def validationCode (embedding : JSVal) (expectedDimensions : ℕ) :
    Option EmbeddingErrorCode :=
  match validateEmbeddingDimensions embedding expectedDimensions with
  | some (.embeddingError _ c) => some c
  | _ => none

/-! ## Retry executor — `withRetry` (`src/utils/retry.ts`, lines 45-87)

```ts
for (let attempt = 0; attempt <= maxRetries; attempt++) {
  try { return await operation(); }
  catch (error) {
    lastError = error as Error;
    if (attempt === maxRetries) break;
    ... // delay computation, a pure sleep
    if (onRetry) onRetry(attempt + 1, lastError);
    await sleep(delay);
  }
}
throw lastError!;
```

The operation is modelled as a function from the attempt index to an
`Except` outcome; the result records the value returned or error thrown, how
many times the operation was invoked, and the `(attempt, error)` arguments of
every `onRetry` callback invocation, in order.  The backoff delay only
suspends; it does not affect the observable result and is not modelled. -/

instance {E A : Type} [DecidableEq E] [DecidableEq A] : DecidableEq (Except E A) :=
  fun x y =>
    match x, y with
    | .ok a, .ok b =>
      if h : a = b then .isTrue (by rw [h])
      else .isFalse (fun hh => h (Except.ok.inj hh))
    | .error a, .error b =>
      if h : a = b then .isTrue (by rw [h])
      else .isFalse (fun hh => h (Except.error.inj hh))
    | .ok _, .error _ => .isFalse (fun hh => Except.noConfusion hh)
    | .error _, .ok _ => .isFalse (fun hh => Except.noConfusion hh)

structure RetryTrace (E A : Type) where
  result : Except E A
  attempts : ℕ
  retryCalls : List (ℕ × E)
deriving DecidableEq

/-- The loop body of `withRetry`: `attempt` is the current loop index and
`remaining` the number of loop iterations still allowed after this one
(`maxRetries - attempt`). -/
def retryLoop (operation : ℕ → Except E A) (attempt : ℕ) : ℕ → RetryTrace E A
  | 0 =>
    match operation attempt with
    | .ok a => ⟨.ok a, 1, []⟩
    | .error e => ⟨.error e, 1, []⟩
  | remaining + 1 =>
    match operation attempt with
    | .ok a => ⟨.ok a, 1, []⟩
    | .error e =>
      let rest := retryLoop operation (attempt + 1) remaining
      ⟨rest.result, rest.attempts + 1, (attempt + 1, e) :: rest.retryCalls⟩

/-- `withRetry(operation, { maxRetries })`: attempts run from `0` to
`maxRetries` inclusive. -/
def withRetry (operation : ℕ → Except E A) (maxRetries : ℕ) : RetryTrace E A :=
  retryLoop operation 0 maxRetries

/-! ## Search manager (`src/search/manager.ts`, the version with retry and
weight normalization)

Options carry JS optionality as `Option`; numbers are rationals.  The Supabase
RPC reply `{ data, error }` is modelled per attempt index, and the outcome
records, besides the returned rows or thrown error, the parameter record of
the RPC dispatch (`none` when the RPC was never invoked) and the number of
RPC invocations performed. -/

/-- Metadata: a flat JSONB object as an association list; `@>` containment of
the filter in a document's metadata is `metaContains`. -/
abbrev Metadata := List (String × String)

def metaContains (doc filt : Metadata) : Bool :=
  filt.all (fun kv => doc.contains kv)

structure SearchRow where
  id : ℕ
  content : String
  metadata : Metadata
  similarity : ℚ
  similarity_main : Option ℚ
  similarity_section_1 : Option ℚ
  similarity_section_2 : Option ℚ
  similarity_section_3 : Option ℚ
deriving DecidableEq

structure SearchOptions where
  queryEmbedding : Option (List JSElem)
  matchThreshold : Option ℚ
  matchCount : Option ℚ
  filterMetadata : Option Metadata

structure WeightedSearchOptions where
  queryEmbedding : Option (List JSElem)
  querySection1 : Option (List JSElem)
  querySection2 : Option (List JSElem)
  querySection3 : Option (List JSElem)
  weightMain : Option ℚ
  weightSection1 : Option ℚ
  weightSection2 : Option ℚ
  weightSection3 : Option ℚ
  matchThreshold : Option ℚ
  matchCount : Option ℚ
  filterMetadata : Option Metadata

/-- Parameter record of the `match_documents` RPC. -/
structure RpcParams where
  query_embedding : List JSElem
  match_threshold : ℚ
  match_count : ℚ
  filter_metadata : Option Metadata
deriving DecidableEq

/-- Parameter record of the `match_documents_weighted` RPC. -/
structure WeightedRpcParams where
  query_embedding : List JSElem
  query_section_1 : Option (List JSElem)
  query_section_2 : Option (List JSElem)
  query_section_3 : Option (List JSElem)
  weight_main : ℚ
  weight_section_1 : ℚ
  weight_section_2 : ℚ
  weight_section_3 : ℚ
  match_threshold : ℚ
  match_count : ℚ
  filter_metadata : Option Metadata
deriving DecidableEq

/-- `x || d` for a JS number option: `0` is falsy, so an explicit `0` falls
back to the default just like an unset value. -/
def jsOr (x : Option ℚ) (d : ℚ) : ℚ :=
  match x with
  | none => d
  | some v => if v = 0 then d else v

/-- `x ?? d` (nullish coalescing): an explicit `0` is preserved. -/
def jsCoalesce (x : Option ℚ) (d : ℚ) : ℚ :=
  x.getD d

/-- A Supabase RPC reply `{ data, error }`, indexed by attempt. -/
structure RpcReply where
  data : Option (List SearchRow)
  error : Option (String × Option String)

/-- `if (error) throw new SearchError(prefix + error.message, error.code);
return (data || []) as SearchResult[];` -/
def rpcOutcome (failMessage : String) (reply : RpcReply) :
    Except JsError (List SearchRow) :=
  match reply.error with
  | some err => .error (.searchError (failMessage ++ err.1) err.2)
  | none => .ok (reply.data.getD [])

/-- The surrounding `catch` block of both search methods:
`ValidationError` and `SearchError` are re-thrown unchanged, anything else is
wrapped into a fresh `SearchError` with an "Unexpected error" message. -/
def catchWrap (ctxMessage : String) (r : Except JsError (List SearchRow)) :
    Except JsError (List SearchRow) :=
  match r with
  | .ok a => .ok a
  | .error e =>
    match e with
    | .validationError _ _ => .error e
    | .searchError _ _ => .error e
    | .embeddingError _ _ => .error (.searchError (ctxMessage ++ e.message) none)

structure SearchOutcome where
  result : Except JsError (List SearchRow)
  dispatched : Option RpcParams
  rpcAttempts : ℕ

structure WeightedSearchOutcome where
  result : Except JsError (List SearchRow)
  dispatched : Option WeightedRpcParams
  rpcAttempts : ℕ

/-- `if (expectedDimensions)` guards the whole validation block; both
`undefined` and `0` are falsy JS numbers, so both skip it. -/
def effectiveDims (expectedDimensions : Option ℕ) : Option ℕ :=
  match expectedDimensions with
  | some n => if n = 0 then none else some n
  | none => none

/-- `if (options.querySectionK) validateEmbeddingDimensions(...)` for an
optional section vector: skipped when the option is absent (`undefined` is
falsy; a present array, even empty, is truthy). -/
def optionalDimCheck (v : Option (List JSElem)) (n : ℕ) : Option JsError :=
  match v with
  | none => none
  | some xs => validateEmbeddingDimensions (.arr xs) n

/-- The parameter record passed to `this.client.rpc('match_documents', ...)`. -/
def mkSearchParams (options : SearchOptions) (q : List JSElem) : RpcParams :=
  { query_embedding := q
    match_threshold := jsOr options.matchThreshold (1/2)
    match_count := jsOr options.matchCount 10
    filter_metadata := options.filterMetadata }

/-- `options.weightMain ?? 0.25`. -/
def providedWeightMain (options : WeightedSearchOptions) : ℚ :=
  jsCoalesce options.weightMain (1/4)

/-- `options.weightSection1 ?? 0.25`. -/
def providedWeightSection1 (options : WeightedSearchOptions) : ℚ :=
  jsCoalesce options.weightSection1 (1/4)

/-- `options.weightSection2 ?? 0.25`. -/
def providedWeightSection2 (options : WeightedSearchOptions) : ℚ :=
  jsCoalesce options.weightSection2 (1/4)

/-- `options.weightSection3 ?? 0.25`. -/
def providedWeightSection3 (options : WeightedSearchOptions) : ℚ :=
  jsCoalesce options.weightSection3 (1/4)

/-- `totalWeight = providedWeightMain + ... + providedWeightSection3`. -/
def totalWeightOf (options : WeightedSearchOptions) : ℚ :=
  providedWeightMain options + providedWeightSection1 options +
    providedWeightSection2 options + providedWeightSection3 options

/-- `Math.abs(totalWeight - 1.0) > 0.01`, the auto-normalization trigger. -/
def normalizeTriggered (options : WeightedSearchOptions) : Prop :=
  |totalWeightOf options - 1| > 1/100

instance (options : WeightedSearchOptions) : Decidable (normalizeTriggered options) := by
  unfold normalizeTriggered; infer_instance

/-- The `normalizedWeightMain` value actually dispatched. -/
def dispatchedWeightMain (options : WeightedSearchOptions) : ℚ :=
  if normalizeTriggered options then providedWeightMain options / totalWeightOf options
  else providedWeightMain options

def dispatchedWeightSection1 (options : WeightedSearchOptions) : ℚ :=
  if normalizeTriggered options then providedWeightSection1 options / totalWeightOf options
  else providedWeightSection1 options

def dispatchedWeightSection2 (options : WeightedSearchOptions) : ℚ :=
  if normalizeTriggered options then providedWeightSection2 options / totalWeightOf options
  else providedWeightSection2 options

def dispatchedWeightSection3 (options : WeightedSearchOptions) : ℚ :=
  if normalizeTriggered options then providedWeightSection3 options / totalWeightOf options
  else providedWeightSection3 options

/-- The parameter record passed to `this.client.rpc('match_documents_weighted', ...)`. -/
def mkWeightedParams (options : WeightedSearchOptions) (q : List JSElem) :
    WeightedRpcParams :=
  { query_embedding := q
    query_section_1 := options.querySection1
    query_section_2 := options.querySection2
    query_section_3 := options.querySection3
    weight_main := dispatchedWeightMain options
    weight_section_1 := dispatchedWeightSection1 options
    weight_section_2 := dispatchedWeightSection2 options
    weight_section_3 := dispatchedWeightSection3 options
    match_threshold := jsOr options.matchThreshold (1/2)
    match_count := jsOr options.matchCount 10
    filter_metadata := options.filterMetadata }

/-- `SearchManager.search(options, expectedDimensions?)`. -/
def search (options : SearchOptions) (expectedDimensions : Option ℕ)
    (backend : ℕ → RpcReply) : SearchOutcome :=
  match options.queryEmbedding with
  | none =>
    ⟨catchWrap "Unexpected error during search: "
      (.error (.validationError "Query embedding is required" "queryEmbedding")),
      none, 0⟩
  | some q =>
    if q.length = 0 then
      ⟨catchWrap "Unexpected error during search: "
        (.error (.validationError "Query embedding is required" "queryEmbedding")),
        none, 0⟩
    else
      match effectiveDims expectedDimensions with
      | some n =>
        match validateEmbeddingDimensions (.arr q) n with
        | some e =>
          ⟨catchWrap "Unexpected error during search: " (.error e), none, 0⟩
        | none => searchDispatch options q backend
      | none => searchDispatch options q backend
where
  searchDispatch (options : SearchOptions) (q : List JSElem)
      (backend : ℕ → RpcReply) : SearchOutcome :=
    let retried := withRetry (fun attempt => rpcOutcome "Search failed: " (backend attempt)) 3
    ⟨catchWrap "Unexpected error during search: " retried.result,
      some (mkSearchParams options q), retried.attempts⟩

/-- The sequence of dimension validations in `searchWeighted`: the main query
vector first, then each present section vector; the first failure throws. -/
def weightedDimCheck (options : WeightedSearchOptions) (q : List JSElem)
    (n : ℕ) : Option JsError :=
  match validateEmbeddingDimensions (.arr q) n with
  | some e => some e
  | none =>
    match optionalDimCheck options.querySection1 n with
    | some e => some e
    | none =>
      match optionalDimCheck options.querySection2 n with
      | some e => some e
      | none => optionalDimCheck options.querySection3 n

/-- `SearchManager.searchWeighted(options, expectedDimensions?)`. -/
def searchWeighted (options : WeightedSearchOptions) (expectedDimensions : Option ℕ)
    (backend : ℕ → RpcReply) : WeightedSearchOutcome :=
  match options.queryEmbedding with
  | none =>
    ⟨catchWrap "Unexpected error during weighted search: "
      (.error (.validationError "Query embedding is required" "queryEmbedding")),
      none, 0⟩
  | some q =>
    if q.length = 0 then
      ⟨catchWrap "Unexpected error during weighted search: "
        (.error (.validationError "Query embedding is required" "queryEmbedding")),
        none, 0⟩
    else
      match effectiveDims expectedDimensions with
      | some n =>
        match weightedDimCheck options q n with
        | some e =>
          ⟨catchWrap "Unexpected error during weighted search: " (.error e), none, 0⟩
        | none => weightedDispatch options q backend
      | none => weightedDispatch options q backend
where
  weightedDispatch (options : WeightedSearchOptions) (q : List JSElem)
      (backend : ℕ → RpcReply) : WeightedSearchOutcome :=
    if totalWeightOf options = 0 then
      ⟨catchWrap "Unexpected error during weighted search: "
        (.error (.validationError "Weights cannot all be zero" "weights")),
        none, 0⟩
    else
      let retried := withRetry
        (fun attempt => rpcOutcome "Weighted search failed: " (backend attempt)) 3
      ⟨catchWrap "Unexpected error during weighted search: " retried.result,
        some (mkWeightedParams options q), retried.attempts⟩

/-! ## `match_documents_weighted`
(`supabase/migrations/001_enable_pgvector.sql`, lines 53-170)

Stored vectors are an abstract type `V` with the pgvector cosine-distance
operator `<=>` supplied as a function `dist : V → V → ℚ`.  A document carries
four nullable embedding columns.  The per-row expressions are translated
directly from the SQL; the query-level clauses (metadata `WHERE` filter,
aggregate-threshold filter, `ORDER BY similarity DESC`, `LIMIT match_count`)
are modelled as a row pipeline — per the migration's documented intent that
threshold filtering applies to the per-row aggregate. -/

structure DocumentRow (V : Type) where
  id : ℕ
  content : String
  metadata : Metadata
  embedding : Option V
  embedding_section_1 : Option V
  embedding_section_2 : Option V
  embedding_section_3 : Option V
deriving DecidableEq

/-- `COALESCE(1 - (documents.embedding <=> query_embedding), 0) * weight_main`:
a NULL stored embedding makes the distance NULL, coalesced to `0`, then
multiplied by the weight. -/
def mainSlotTerm {V : Type} (dist : V → V → ℚ) (query_embedding : V)
    (docEmb : Option V) (weight : ℚ) : ℚ :=
  (match docEmb with
   | some d => 1 - dist d query_embedding
   | none => 0) * weight

/-- `CASE WHEN query_section_k IS NOT NULL AND documents.embedding_section_k
IS NOT NULL THEN (1 - (embedding_section_k <=> query_section_k)) * weight_k
ELSE 0 END`. -/
def sectionSlotTerm {V : Type} (dist : V → V → ℚ) (query_section : Option V)
    (docEmb : Option V) (weight : ℚ) : ℚ :=
  match query_section, docEmb with
  | some qv, some d => (1 - dist d qv) * weight
  | _, _ => 0

/-- The SQL `similarity` output column (and the recomputed copy in the
threshold filter). -/
def codeAggregate {V : Type} (dist : V → V → ℚ) (query_embedding : V)
    (query_section_1 query_section_2 query_section_3 : Option V)
    (weight_main weight_section_1 weight_section_2 weight_section_3 : ℚ)
    (d : DocumentRow V) : ℚ :=
  mainSlotTerm dist query_embedding d.embedding weight_main +
    sectionSlotTerm dist query_section_1 d.embedding_section_1 weight_section_1 +
    sectionSlotTerm dist query_section_2 d.embedding_section_2 weight_section_2 +
    sectionSlotTerm dist query_section_3 d.embedding_section_3 weight_section_3

/-- `CASE WHEN query_section_k IS NOT NULL AND embedding_section_k IS NOT NULL
THEN (1 - distance) ELSE NULL END AS similarity_section_k`. -/
def sectionSimilarity {V : Type} (dist : V → V → ℚ) (query_section : Option V)
    (docEmb : Option V) : Option ℚ :=
  match query_section, docEmb with
  | some qv, some d => some (1 - dist d qv)
  | _, _ => none

/-- One `SELECT` output row for a document. `similarity_main` is
`(1 - (documents.embedding <=> query_embedding))`, which is NULL when the
stored main embedding is NULL. -/
def rowOf {V : Type} (dist : V → V → ℚ) (query_embedding : V)
    (query_section_1 query_section_2 query_section_3 : Option V)
    (weight_main weight_section_1 weight_section_2 weight_section_3 : ℚ)
    (d : DocumentRow V) : SearchRow :=
  { id := d.id
    content := d.content
    metadata := d.metadata
    similarity := codeAggregate dist query_embedding query_section_1
      query_section_2 query_section_3 weight_main weight_section_1
      weight_section_2 weight_section_3 d
    similarity_main := d.embedding.map (fun e => 1 - dist e query_embedding)
    similarity_section_1 := sectionSimilarity dist query_section_1 d.embedding_section_1
    similarity_section_2 := sectionSimilarity dist query_section_2 d.embedding_section_2
    similarity_section_3 := sectionSimilarity dist query_section_3 d.embedding_section_3 }

/-- `(filter_metadata IS NULL OR documents.metadata @> filter_metadata)`. -/
def metaFilterPass (filter_metadata : Option Metadata) (m : Metadata) : Bool :=
  match filter_metadata with
  | none => true
  | some f => metaContains m f

/-- Insert a row into a similarity-descending list (used to model
`ORDER BY similarity DESC`). -/
def insertRowDesc (r : SearchRow) : List SearchRow → List SearchRow
  | [] => [r]
  | x :: xs =>
    if x.similarity < r.similarity then r :: x :: xs else x :: insertRowDesc r xs

def sortRowsDesc : List SearchRow → List SearchRow
  | [] => []
  | x :: xs => insertRowDesc x (sortRowsDesc xs)

/-- The full query pipeline of `match_documents_weighted`. -/
def matchDocumentsWeighted {V : Type} (dist : V → V → ℚ)
    (docs : List (DocumentRow V)) (query_embedding : V)
    (query_section_1 query_section_2 query_section_3 : Option V)
    (weight_main weight_section_1 weight_section_2 weight_section_3 : ℚ)
    (match_threshold : ℚ) (match_count : ℕ)
    (filter_metadata : Option Metadata) : List SearchRow :=
  let visible := docs.filter (fun d => metaFilterPass filter_metadata d.metadata)
  let kept := visible.filter (fun d =>
    decide (match_threshold ≤ codeAggregate dist query_embedding query_section_1
      query_section_2 query_section_3 weight_main weight_section_1
      weight_section_2 weight_section_3 d))
  (sortRowsDesc (kept.map (rowOf dist query_embedding query_section_1
    query_section_2 query_section_3 weight_main weight_section_1
    weight_section_2 weight_section_3))).take match_count

/-- Spec-side slot contribution, following the spec's wording: slot
similarity is `1` minus the slot's cosine distance when *both* the query
vector and the candidate's embedding for that slot are present, contributing
`slot_similarity × slot_weight`, and the contribution is `0` for a slot where
either side is absent. -/
def specSlotContribution {V : Type} (dist : V → V → ℚ) (queryVec : Option V)
    (docEmb : Option V) (weight : ℚ) : ℚ :=
  match queryVec, docEmb with
  | some qv, some d => (1 - dist d qv) * weight
  | _, _ => 0

/-- Spec-side aggregate: the sum over the four slots (main, sections 1-3) of
the slot contributions; the main query vector is always present. -/
def specAggregate {V : Type} (dist : V → V → ℚ) (query_embedding : V)
    (query_section_1 query_section_2 query_section_3 : Option V)
    (weight_main weight_section_1 weight_section_2 weight_section_3 : ℚ)
    (d : DocumentRow V) : ℚ :=
  specSlotContribution dist (some query_embedding) d.embedding weight_main +
    specSlotContribution dist query_section_1 d.embedding_section_1 weight_section_1 +
    specSlotContribution dist query_section_2 d.embedding_section_2 weight_section_2 +
    specSlotContribution dist query_section_3 d.embedding_section_3 weight_section_3

/-! ## Batch insert — `DocumentManager.insertBatch`
(`src/document/manager.ts`, lines 82-145)

```ts
if (documents.length === 0) return [];
for (let i = 0; i < documents.length; i += batchSize) {
  const batch = documents.slice(i, i + batchSize);
  const batchResult = await withRetry(... insert(batch) ...);
  results.push(...batchResult);
  completed += batch.length;
  if (onProgress) onProgress(completed, documents.length);
}
```

We model the run in which every chunk insert succeeds, recording the ordered
trace of observable events: each chunk insertion and each progress-callback
invocation.  The loop is fuel-indexed (each iteration consumes at least one
document when the chunk size is positive; with chunk size `0` the JS loop
would not terminate either). -/

inductive BatchEvent (D : Type) where
  | insertChunk (chunk : List D)
  | progress (completed total : ℕ)
deriving DecidableEq

def insertBatchGo {D : Type} (batchSize total : ℕ) :
    ℕ → List D → ℕ → List (BatchEvent D)
  | _, [], _ => []
  | 0, _ :: _, _ => []
  | fuel + 1, d :: ds, completed =>
    let batch := (d :: ds).take batchSize
    let newCompleted := completed + batch.length
    .insertChunk batch :: .progress newCompleted total ::
      insertBatchGo batchSize total fuel ((d :: ds).drop batchSize) newCompleted

/-- The event trace of `insertBatch(documents, batchSize, onProgress)` when
every chunk insert succeeds. -/
def insertBatch {D : Type} (documents : List D) (batchSize : ℕ) :
    List (BatchEvent D) :=
  insertBatchGo batchSize documents.length documents.length documents 0

/-- The `(completed, total)` arguments of the progress-callback invocations,
in order. -/
def progressCalls {D : Type} : List (BatchEvent D) → List (ℕ × ℕ)
  | [] => []
  | .progress c t :: rest => (c, t) :: progressCalls rest
  | .insertChunk _ :: rest => progressCalls rest

/-- Spec-side chunk partition: the documents split into consecutive chunks of
the given size (fuel-indexed like the loop). -/
def chunksOfGo {D : Type} (b : ℕ) : ℕ → List D → List (List D)
  | _, [] => []
  | 0, _ :: _ => []
  | fuel + 1, d :: ds => (d :: ds).take b :: chunksOfGo b fuel ((d :: ds).drop b)

def chunksOf {D : Type} (b : ℕ) (l : List D) : List (List D) :=
  chunksOfGo b l.length l

/-- Spec-side trace, following the spec's wording: insert chunk-by-chunk and
invoke the progress callback after each chunk with the cumulative completed
count and the total. -/
def specTraceGo {D : Type} (total : ℕ) :
    List (List D) → ℕ → List (BatchEvent D)
  | [], _ => []
  | c :: cs, completed =>
    .insertChunk c :: .progress (completed + c.length) total ::
      specTraceGo total cs (completed + c.length)

def specBatchTrace {D : Type} (b : ℕ) (l : List D) : List (BatchEvent D) :=
  specTraceGo l.length (chunksOf b l) 0

/-! ### Concrete fixtures used in counterexamples and witnesses -/

/-- A backend whose every reply is `{ data: [], error: null }`. -/
def emptyBackend : ℕ → RpcReply := fun _ => ⟨some [], none⟩

/-- A valid one-dimensional query vector. -/
def q1 : List JSElem := [JSElem.num (JSNum.finite 1)]

/-- Single-vector options with only the query set. -/
def baseSearchOptions : SearchOptions :=
  { queryEmbedding := some q1
    matchThreshold := none
    matchCount := none
    filterMetadata := none }

/-- Weighted options with only the main query vector set. -/
def baseWeightedOptions : WeightedSearchOptions :=
  { queryEmbedding := some q1
    querySection1 := none
    querySection2 := none
    querySection3 := none
    weightMain := none
    weightSection1 := none
    weightSection2 := none
    weightSection3 := none
    matchThreshold := none
    matchCount := none
    filterMetadata := none }

/-- A 3-element query vector (wrong length for expected dimensionality 2). -/
def dims3Query : List JSElem :=
  [JSElem.num (JSNum.finite 1), JSElem.num (JSNum.finite 2), JSElem.num (JSNum.finite 3)]

def dims3Options : SearchOptions :=
  { baseSearchOptions with queryEmbedding := some dims3Query }

/-- Single-vector options with an explicit 0 threshold and 0 count. -/
def zeroDefaultsOptions : SearchOptions :=
  { baseSearchOptions with matchThreshold := some 0, matchCount := some 0 }

def noQueryOptions : SearchOptions :=
  { baseSearchOptions with queryEmbedding := none }

/-- Weighted options with every weight explicitly 0. -/
def wZeroWeights : WeightedSearchOptions :=
  { baseWeightedOptions with
    weightMain := some 0
    weightSection1 := some 0
    weightSection2 := some 0
    weightSection3 := some 0 }

/-- Weighted options with every weight 0.5 (total 2.0, triggers rescaling). -/
def wHalfWeights : WeightedSearchOptions :=
  { baseWeightedOptions with
    weightMain := some (1/2)
    weightSection1 := some (1/2)
    weightSection2 := some (1/2)
    weightSection3 := some (1/2) }

/-- Weighted options whose provided weights total 1.005 — inside the 0.01
pass-through tolerance but not within 1e-6 of 1. -/
def wPassthroughOptions : WeightedSearchOptions :=
  { baseWeightedOptions with
    weightMain := some (51/200)
    weightSection1 := some (1/4)
    weightSection2 := some (1/4)
    weightSection3 := some (1/4) }

/-- The spec scenario: raw weights main = 50 and section2 = 50, the other two
slots unset. -/
def wFiftyOptions : WeightedSearchOptions :=
  { baseWeightedOptions with weightMain := some 50, weightSection2 := some 50 }

/-- Raw weights main = 50 and section2 = 50 with the other two explicitly 0. -/
def wFiftyZeroOptions : WeightedSearchOptions :=
  { baseWeightedOptions with
    weightMain := some 50
    weightSection1 := some 0
    weightSection2 := some 50
    weightSection3 := some 0 }

/-- Weighted options with explicit 0 main weight, thirds elsewhere (total 1),
and explicit 0 threshold and count. -/
def wExplicitZeroOptions : WeightedSearchOptions :=
  { baseWeightedOptions with
    weightMain := some 0
    weightSection1 := some (1/3)
    weightSection2 := some (1/3)
    weightSection3 := some (1/3)
    matchThreshold := some 0
    matchCount := some 0 }

/-! ## Theorems -/

/-- **C5**: For every input to the dimension validator with an expected
dimensionality: a non-array fails with `InvalidEmbeddingType`; otherwise a
length differing from the expected dimensionality fails with
`DimensionMismatch`; otherwise any component that is not a number or is NaN
fails with `InvalidEmbeddingValues`; otherwise it returns void (no error). -/
theorem validateEmbeddingDimensions_cases (v : JSVal) (n : ℕ) :
    (v = JSVal.notArr →
      validationCode v n = some EmbeddingErrorCode.invalidEmbeddingType)
  ∧ (∀ xs, v = JSVal.arr xs → xs.length ≠ n →
      validationCode v n = some EmbeddingErrorCode.dimensionMismatch)
  ∧ (∀ xs, v = JSVal.arr xs → xs.length = n →
      (∃ e ∈ xs, ¬(e.isNumber = true ∧ e.isNaN = false)) →
      validationCode v n = some EmbeddingErrorCode.invalidEmbeddingValues)
  ∧ (∀ xs, v = JSVal.arr xs → xs.length = n →
      (∀ e ∈ xs, e.isNumber = true ∧ e.isNaN = false) →
      validateEmbeddingDimensions v n = none) := by
  refine ⟨?_, ?_, ?_, ?_⟩
  · rintro rfl; rfl
  · rintro xs rfl hne
    simp [validationCode, validateEmbeddingDimensions, hne]
  · rintro xs rfl hlen ⟨e, he, hbad⟩
    have hall : ¬ xs.all (fun val => val.isNumber && !val.isNaN) = true := by
      simp only [List.all_eq_true]
      intro h
      exact hbad (by simpa [Bool.and_eq_true, Bool.not_eq_true'] using h e he)
    simp [validationCode, validateEmbeddingDimensions, hlen, hall]
  · rintro xs rfl hlen hgood
    have hall : xs.all (fun val => val.isNumber && !val.isNaN) = true := by
      simp only [List.all_eq_true]
      intro e he
      have h := hgood e he
      simp [h.1, h.2]
    simp [validateEmbeddingDimensions, hlen, hall]

/-- Witness for C5: a correct-length array containing NaN is rejected with
`InvalidEmbeddingValues`. -/
theorem validateEmbeddingDimensions_cases_witness :
    validationCode (JSVal.arr [JSElem.num (JSNum.finite 1), JSElem.num JSNum.nan]) 2
      = some EmbeddingErrorCode.invalidEmbeddingValues :=
  (validateEmbeddingDimensions_cases
      (JSVal.arr [JSElem.num (JSNum.finite 1), JSElem.num JSNum.nan]) 2).2.2.1
    _ rfl (by decide) ⟨JSElem.num JSNum.nan, by decide, by decide⟩

/-- Counterexample to **C9** as stated: an array of the expected length whose
components are all numbers, one of which is the non-finite `Infinity`, passes
validation (the claim asserts it fails). -/
theorem validator_accepts_infinity :
    (JSElem.num JSNum.inf).isNumber = true ∧
    JSNum.inf.isFinite = false ∧
    [JSElem.num JSNum.inf, JSElem.num (JSNum.finite 0)].length = 2 ∧
    validateEmbeddingDimensions
      (JSVal.arr [JSElem.num JSNum.inf, JSElem.num (JSNum.finite 0)]) 2 = none := by
  refine ⟨rfl, rfl, rfl, ?_⟩
  decide

/-- **C9 (amended)**: the validator does not test finiteness — for an array of
the expected length all of whose elements are numbers, validation succeeds
exactly when no element is NaN; non-finite values (Infinity, -Infinity) are
accepted. -/
theorem validator_nan_only (xs : List JSElem) (n : ℕ)
    (hlen : xs.length = n) (hnum : ∀ e ∈ xs, e.isNumber = true) :
    validateEmbeddingDimensions (JSVal.arr xs) n = none ↔
      ∀ e ∈ xs, e.isNaN = false := by
  subst hlen
  show (if xs.length ≠ xs.length then _ else _) = none ↔ _
  rw [if_neg (fun h => h rfl)]
  by_cases hall : xs.all (fun val => val.isNumber && !val.isNaN) = true
  · rw [if_pos hall]
    simp only [List.all_eq_true] at hall
    constructor
    · intro _ e he
      have h2 := hall e he
      cases hb : JSElem.isNaN e
      · rfl
      · rw [hb] at h2; simp at h2
    · intro _; rfl
  · rw [if_neg hall]
    constructor
    · intro h; simp at h
    · intro h
      exfalso
      apply hall
      simp only [List.all_eq_true]
      intro e he
      simp [hnum e he, h e he]

/-- Witness for C9 (amended): a vector containing `-Infinity` passes. -/
theorem validator_nan_only_witness :
    validateEmbeddingDimensions (JSVal.arr [JSElem.num JSNum.negInf]) 1 = none :=
  (validator_nan_only [JSElem.num JSNum.negInf] 1 (by decide) (by decide)).mpr
    (by decide)

/-- If every attempt from `attempt` through `attempt + remaining` fails, the
retry loop throws the error of the last attempt after `remaining + 1`
operation invocations and `remaining` callback invocations. -/
theorem retryLoop_all_fail {E A : Type} (operation : ℕ → Except E A) (errs : ℕ → E) :
    ∀ remaining attempt,
      (∀ i, attempt ≤ i → i ≤ attempt + remaining → operation i = .error (errs i)) →
      (retryLoop operation attempt remaining).result = .error (errs (attempt + remaining)) ∧
      (retryLoop operation attempt remaining).attempts = remaining + 1 ∧
      (retryLoop operation attempt remaining).retryCalls.length = remaining := by
  intro remaining
  induction remaining with
  | zero =>
    intro attempt h
    have h0 := h attempt le_rfl (by omega)
    simp [retryLoop, h0]
  | succ r ih =>
    intro attempt h
    have h0 := h attempt le_rfl (by omega)
    have hrest := ih (attempt + 1) (fun i h1 h2 => h i (by omega) (by omega))
    simp only [retryLoop, h0]
    refine ⟨?_, ?_, ?_⟩
    · simpa [show attempt + 1 + r = attempt + (r + 1) by omega] using hrest.1
    · simp [hrest.2.1]
    · simp [hrest.2.2]

/-- If the first `k` attempts fail and attempt `k` succeeds (`k` within the
budget), the retry loop returns the success after `k + 1` operation
invocations and `k` callback invocations. -/
theorem retryLoop_succeeds {E A : Type} (operation : ℕ → Except E A) (errs : ℕ → E)
    (a : A) :
    ∀ k attempt remaining, k ≤ remaining →
      (∀ i, attempt ≤ i → i < attempt + k → operation i = .error (errs i)) →
      operation (attempt + k) = .ok a →
      (retryLoop operation attempt remaining).result = .ok a ∧
      (retryLoop operation attempt remaining).attempts = k + 1 ∧
      (retryLoop operation attempt remaining).retryCalls.length = k := by
  intro k
  induction k with
  | zero =>
    intro attempt remaining _ _ hok
    rw [Nat.add_zero] at hok
    cases remaining <;> simp [retryLoop, hok]
  | succ k ih =>
    intro attempt remaining hk hf hok
    obtain ⟨r, rfl⟩ : ∃ r, remaining = r + 1 := ⟨remaining - 1, by omega⟩
    have h0 : operation attempt = .error (errs attempt) := hf attempt le_rfl (by omega)
    have hrest := ih (attempt + 1) r (by omega)
      (fun i h1 h2 => hf i (by omega) (by omega))
      (by rw [show attempt + 1 + k = attempt + (k + 1) by omega]; exact hok)
    simp only [retryLoop, h0]
    exact ⟨hrest.1, by simp [hrest.2.1], by simp [hrest.2.2]⟩

/-- **C3**: an operation that fails exactly `maxRetries` times and then
succeeds makes `withRetry` return the success result, after invoking the
per-attempt callback exactly `maxRetries` times; an operation that fails on
every attempt makes `withRetry` perform exactly `maxRetries + 1` attempts and
re-raise the last encountered error unchanged (the very same error value). -/
theorem withRetry_budget {E A : Type} (operation : ℕ → Except E A)
    (maxRetries : ℕ) (errs : ℕ → E) (a : A) :
    ((∀ i, i < maxRetries → operation i = .error (errs i)) →
      operation maxRetries = .ok a →
      (withRetry operation maxRetries).result = .ok a ∧
      (withRetry operation maxRetries).retryCalls.length = maxRetries)
  ∧ ((∀ i, i ≤ maxRetries → operation i = .error (errs i)) →
      (withRetry operation maxRetries).result = .error (errs maxRetries) ∧
      (withRetry operation maxRetries).attempts = maxRetries + 1) := by
  constructor
  · intro hf hok
    have h := retryLoop_succeeds operation errs a maxRetries 0 maxRetries le_rfl
      (fun i _ h2 => hf i (by omega)) (by simpa using hok)
    exact ⟨h.1, h.2.2⟩
  · intro hf
    have h := retryLoop_all_fail operation errs maxRetries 0
      (fun i _ h2 => hf i (by omega))
    exact ⟨by simpa using h.1, h.2.1⟩

/-- Witness for C3: an operation failing on attempts 0 and 1 and succeeding on
attempt 2 with budget 2; and an operation that always fails with budget 3. -/
theorem withRetry_budget_witness :
    ((withRetry (fun i => if i < 2 then Except.error i else Except.ok 42) 2).result
        = Except.ok 42 ∧
      (withRetry (fun i => if i < 2 then Except.error i else Except.ok 42) 2).retryCalls.length
        = 2)
  ∧ ((withRetry (fun _ => (Except.error 7 : Except ℕ ℕ)) 3).result = Except.error 7 ∧
      (withRetry (fun _ => (Except.error 7 : Except ℕ ℕ)) 3).attempts = 4) :=
  ⟨(withRetry_budget (fun i => if i < 2 then Except.error i else Except.ok 42) 2
      (fun i => i) 42).1
      (by intro i hi; interval_cases i <;> rfl) (by rfl),
    (withRetry_budget (fun _ => (Except.error 7 : Except ℕ ℕ)) 3 (fun _ => 7) 0).2
      (fun _ _ => rfl)⟩

/-! ### Search-manager lemmas -/

/-- Whenever `search` dispatched an RPC, the parameters are exactly
`mkSearchParams` for the present query vector. -/
theorem search_dispatched_eq (options : SearchOptions)
    (expectedDimensions : Option ℕ) (backend : ℕ → RpcReply) (p : RpcParams)
    (h : (search options expectedDimensions backend).dispatched = some p) :
    ∃ q, options.queryEmbedding = some q ∧ p = mkSearchParams options q := by
  unfold search search.searchDispatch at h
  split at h
  · simp at h
  · next q hq =>
    split at h
    · simp at h
    · split at h
      · split at h
        · simp at h
        · simp at h
          exact ⟨q, hq, h.symm⟩
      · simp at h
        exact ⟨q, hq, h.symm⟩

/-- Whenever `searchWeighted` dispatched an RPC, the total effective weight is
nonzero and the parameters are exactly `mkWeightedParams` for the present
query vector. -/
theorem searchWeighted_dispatched_eq (options : WeightedSearchOptions)
    (expectedDimensions : Option ℕ) (backend : ℕ → RpcReply)
    (p : WeightedRpcParams)
    (h : (searchWeighted options expectedDimensions backend).dispatched = some p) :
    totalWeightOf options ≠ 0 ∧
      ∃ q, options.queryEmbedding = some q ∧ p = mkWeightedParams options q := by
  unfold searchWeighted searchWeighted.weightedDispatch at h
  split at h
  · simp at h
  · next q hq =>
    split at h
    · simp at h
    · split at h
      · split at h
        · simp at h
        · split at h
          · simp at h
          · next ht =>
            simp at h
            exact ⟨ht, q, hq, h.symm⟩
      · split at h
        · simp at h
        · next ht =>
          simp at h
          exact ⟨ht, q, hq, h.symm⟩

/-- A missing or empty main query vector makes `search` throw the
`ValidationError` unchanged, with no RPC dispatch and no attempt. -/
theorem search_missing_query (options : SearchOptions)
    (expectedDimensions : Option ℕ) (backend : ℕ → RpcReply)
    (h : options.queryEmbedding = none ∨ options.queryEmbedding = some []) :
    (search options expectedDimensions backend).result =
        .error (.validationError "Query embedding is required" "queryEmbedding") ∧
    (search options expectedDimensions backend).dispatched = none ∧
    (search options expectedDimensions backend).rpcAttempts = 0 := by
  rcases h with h | h <;> unfold search <;> rw [h] <;> simp [catchWrap]

/-- A missing or empty main query vector makes `searchWeighted` throw the
`ValidationError` unchanged, with no RPC dispatch and no attempt. -/
theorem searchWeighted_missing_query (options : WeightedSearchOptions)
    (expectedDimensions : Option ℕ) (backend : ℕ → RpcReply)
    (h : options.queryEmbedding = none ∨ options.queryEmbedding = some []) :
    (searchWeighted options expectedDimensions backend).result =
        .error (.validationError "Query embedding is required" "queryEmbedding") ∧
    (searchWeighted options expectedDimensions backend).dispatched = none ∧
    (searchWeighted options expectedDimensions backend).rpcAttempts = 0 := by
  rcases h with h | h <;> unfold searchWeighted <;> rw [h] <;> simp [catchWrap]

/-- A dimension-validation failure in `search` reaches the caller wrapped into
a fresh `SearchError` (the `catch` re-throws only `ValidationError` and
`SearchError` unchanged, and `EmbeddingError` is neither); no RPC dispatch and
no attempt happen. -/
theorem search_dim_fail (options : SearchOptions)
    (expectedDimensions : Option ℕ) (backend : ℕ → RpcReply)
    (q : List JSElem) (n : ℕ) (m : String) (c : EmbeddingErrorCode)
    (hq : options.queryEmbedding = some q) (hlen : q ≠ [])
    (hdim : effectiveDims expectedDimensions = some n)
    (hval : validateEmbeddingDimensions (.arr q) n = some (.embeddingError m c)) :
    (search options expectedDimensions backend).result =
        .error (.searchError ("Unexpected error during search: " ++ m) none) ∧
    (search options expectedDimensions backend).dispatched = none ∧
    (search options expectedDimensions backend).rpcAttempts = 0 := by
  have hl : ¬ q.length = 0 := by
    simpa [List.length_eq_zero] using hlen
  unfold search
  rw [hq]
  simp [hl, hdim, hval, catchWrap, JsError.message]

/-- A dimension-validation failure in `searchWeighted` reaches the caller
wrapped into a fresh `SearchError`; no RPC dispatch and no attempt happen. -/
theorem searchWeighted_dim_fail (options : WeightedSearchOptions)
    (expectedDimensions : Option ℕ) (backend : ℕ → RpcReply)
    (q : List JSElem) (n : ℕ) (m : String) (c : EmbeddingErrorCode)
    (hq : options.queryEmbedding = some q) (hlen : q ≠ [])
    (hdim : effectiveDims expectedDimensions = some n)
    (hval : weightedDimCheck options q n = some (.embeddingError m c)) :
    (searchWeighted options expectedDimensions backend).result =
        .error (.searchError ("Unexpected error during weighted search: " ++ m) none) ∧
    (searchWeighted options expectedDimensions backend).dispatched = none ∧
    (searchWeighted options expectedDimensions backend).rpcAttempts = 0 := by
  have hl : ¬ q.length = 0 := by
    simpa [List.length_eq_zero] using hlen
  unfold searchWeighted
  rw [hq]
  simp [hl, hdim, hval, catchWrap, JsError.message]

/-- An all-zero effective weight total makes `searchWeighted` throw the
`ValidationError('Weights cannot all be zero')` unchanged, with no RPC
dispatch and no attempt. -/
theorem searchWeighted_zero_total (options : WeightedSearchOptions)
    (expectedDimensions : Option ℕ) (backend : ℕ → RpcReply) (q : List JSElem)
    (hq : options.queryEmbedding = some q) (hlen : q ≠ [])
    (hdim : ∀ n, effectiveDims expectedDimensions = some n →
      weightedDimCheck options q n = none)
    (ht : totalWeightOf options = 0) :
    (searchWeighted options expectedDimensions backend).result =
        .error (.validationError "Weights cannot all be zero" "weights") ∧
    (searchWeighted options expectedDimensions backend).dispatched = none ∧
    (searchWeighted options expectedDimensions backend).rpcAttempts = 0 := by
  have hl : ¬ q.length = 0 := by
    simpa [List.length_eq_zero] using hlen
  unfold searchWeighted searchWeighted.weightedDispatch
  rw [hq]
  cases hd : effectiveDims expectedDimensions with
  | none => simp [hl, ht, catchWrap]
  | some n => simp [hl, hdim n hd, ht, catchWrap]

/-- When all validations pass, `search` dispatches `mkSearchParams`. -/
theorem search_dispatch_success (options : SearchOptions)
    (expectedDimensions : Option ℕ) (backend : ℕ → RpcReply) (q : List JSElem)
    (hq : options.queryEmbedding = some q) (hlen : q ≠ [])
    (hdim : ∀ n, effectiveDims expectedDimensions = some n →
      validateEmbeddingDimensions (JSVal.arr q) n = none) :
    (search options expectedDimensions backend).dispatched =
      some (mkSearchParams options q) := by
  have hl : ¬ q.length = 0 := by
    simpa [List.length_eq_zero] using hlen
  unfold search search.searchDispatch
  rw [hq]
  cases hd : effectiveDims expectedDimensions with
  | none => simp [hl]
  | some n => simp [hl, hdim n hd]

/-- When all validations pass and the total weight is nonzero,
`searchWeighted` dispatches `mkWeightedParams`. -/
theorem searchWeighted_dispatch_success (options : WeightedSearchOptions)
    (expectedDimensions : Option ℕ) (backend : ℕ → RpcReply) (q : List JSElem)
    (hq : options.queryEmbedding = some q) (hlen : q ≠ [])
    (hdim : ∀ n, effectiveDims expectedDimensions = some n →
      weightedDimCheck options q n = none)
    (ht : totalWeightOf options ≠ 0) :
    (searchWeighted options expectedDimensions backend).dispatched =
      some (mkWeightedParams options q) := by
  have hl : ¬ q.length = 0 := by
    simpa [List.length_eq_zero] using hlen
  unfold searchWeighted searchWeighted.weightedDispatch
  rw [hq]
  cases hd : effectiveDims expectedDimensions with
  | none => simp [hl, ht]
  | some n => simp [hl, hdim n hd, ht]

/-- Counterexample to **C2** as stated: provided weights 0.255, 0.25, 0.25,
0.25 have the strictly positive total 1.005, which is inside the 0.01
pass-through tolerance, so the dispatched weights are the inputs unchanged and
sum to 1.005 — not 1.0 within 1e-6. -/
theorem searchWeighted_passthrough_sum_ne_one :
    (searchWeighted wPassthroughOptions none emptyBackend).dispatched.map
        (fun p => p.weight_main + p.weight_section_1 + p.weight_section_2 +
          p.weight_section_3) = some (201/200)
  ∧ ¬ |(201/200 : ℚ) - 1| ≤ 1/1000000 := by
  have htot : totalWeightOf wPassthroughOptions = 201/200 := by
    simp [totalWeightOf, providedWeightMain, providedWeightSection1,
      providedWeightSection2, providedWeightSection3, jsCoalesce,
      wPassthroughOptions, baseWeightedOptions]
    norm_num
  have hnt : ¬ normalizeTriggered wPassthroughOptions := by
    unfold normalizeTriggered
    rw [htot]
    norm_num [abs_le]
  have hd := searchWeighted_dispatch_success wPassthroughOptions none emptyBackend q1
    rfl (by simp [q1]) (fun n hn => by simp [effectiveDims] at hn)
    (by rw [htot]; norm_num)
  constructor
  · rw [hd]
    simp only [Option.map_some', Option.some.injEq, mkWeightedParams,
      dispatchedWeightMain, dispatchedWeightSection1, dispatchedWeightSection2,
      dispatchedWeightSection3, if_neg hnt]
    exact htot
  · norm_num [lt_abs]

/-- **C2 (amended)**: when the effective weight total is nonzero and differs
from 1.0 by more than 0.01, the dispatched weights (each divided by the
total) sum to exactly 1 (hence within 1e-6); when the total is within 0.01 of
1.0 the weights are passed through unchanged and their sum is only within
0.01 of 1.0.  When the total is exactly zero, the call fails with the
`ValidationError('Weights cannot all be zero')` and no backend call is
made. -/
theorem searchWeighted_weight_normalization (options : WeightedSearchOptions)
    (expectedDimensions : Option ℕ) (backend : ℕ → RpcReply) :
    ((∃ q, options.queryEmbedding = some q ∧ q ≠ [] ∧
        ∀ n, effectiveDims expectedDimensions = some n →
          weightedDimCheck options q n = none) →
      totalWeightOf options = 0 →
      (searchWeighted options expectedDimensions backend).result =
          .error (.validationError "Weights cannot all be zero" "weights") ∧
      (searchWeighted options expectedDimensions backend).dispatched = none ∧
      (searchWeighted options expectedDimensions backend).rpcAttempts = 0)
  ∧ (∀ p, (searchWeighted options expectedDimensions backend).dispatched = some p →
      (|totalWeightOf options - 1| > 1/100 →
        p.weight_main + p.weight_section_1 + p.weight_section_2 +
          p.weight_section_3 = 1)
    ∧ (|totalWeightOf options - 1| ≤ 1/100 →
        p.weight_main = providedWeightMain options ∧
        p.weight_section_1 = providedWeightSection1 options ∧
        p.weight_section_2 = providedWeightSection2 options ∧
        p.weight_section_3 = providedWeightSection3 options ∧
        |p.weight_main + p.weight_section_1 + p.weight_section_2 +
          p.weight_section_3 - 1| ≤ 1/100)) := by
  constructor
  · rintro ⟨q, hq, hlen, hdim⟩ ht
    exact searchWeighted_zero_total options expectedDimensions backend q hq hlen hdim ht
  · intro p hp
    obtain ⟨ht, q, hq, rfl⟩ :=
      searchWeighted_dispatched_eq options expectedDimensions backend p hp
    constructor
    · intro htrig
      have hn : normalizeTriggered options := by
        unfold normalizeTriggered; exact htrig
      simp only [mkWeightedParams, dispatchedWeightMain, dispatchedWeightSection1,
        dispatchedWeightSection2, dispatchedWeightSection3, if_pos hn]
      rw [div_add_div_same, div_add_div_same, div_add_div_same]
      exact div_self ht
    · intro htol
      have hn : ¬ normalizeTriggered options := by
        unfold normalizeTriggered; exact not_lt.mpr htol
      refine ⟨?_, ?_, ?_, ?_, ?_⟩ <;>
        simp only [mkWeightedParams, dispatchedWeightMain, dispatchedWeightSection1,
          dispatchedWeightSection2, dispatchedWeightSection3, if_neg hn]
      exact htol

/-- Witness for C2 (amended): all-zero provided weights fail with the
`ValidationError`; provided weights 0.5 each (total 2.0) are rescaled and the
dispatched weights sum to exactly 1. -/
theorem searchWeighted_weight_normalization_witness :
    (searchWeighted wZeroWeights none emptyBackend).result =
        .error (.validationError "Weights cannot all be zero" "weights")
  ∧ (mkWeightedParams wHalfWeights q1).weight_main +
      (mkWeightedParams wHalfWeights q1).weight_section_1 +
      (mkWeightedParams wHalfWeights q1).weight_section_2 +
      (mkWeightedParams wHalfWeights q1).weight_section_3 = 1 := by
  have htot0 : totalWeightOf wZeroWeights = 0 := by
    norm_num [totalWeightOf, providedWeightMain, providedWeightSection1,
      providedWeightSection2, providedWeightSection3, jsCoalesce, wZeroWeights,
      baseWeightedOptions]
  have htot2 : totalWeightOf wHalfWeights = 2 := by
    norm_num [totalWeightOf, providedWeightMain, providedWeightSection1,
      providedWeightSection2, providedWeightSection3, jsCoalesce, wHalfWeights,
      baseWeightedOptions]
  have hd := searchWeighted_dispatch_success wHalfWeights none emptyBackend q1
    rfl (by simp [q1]) (fun n hn => by simp [effectiveDims] at hn)
    (by rw [htot2]; norm_num)
  exact ⟨((searchWeighted_weight_normalization wZeroWeights none emptyBackend).1
      ⟨q1, rfl, by simp [q1], fun n hn => by simp [effectiveDims] at hn⟩ htot0).1,
    ((searchWeighted_weight_normalization wHalfWeights none emptyBackend).2
      (mkWeightedParams wHalfWeights q1) hd).1 (by rw [htot2]; norm_num [lt_abs])⟩

/-- Counterexample to **C4** as stated: with expected dimensionality 2 and a
3-element query vector, the dimension validator's `EmbeddingError` does not
reach the caller unchanged — the `catch` block re-throws only
`ValidationError` and `SearchError` unchanged, so the caller receives a fresh
wrapping `SearchError` instead. -/
theorem search_dimension_error_wrapped :
    (search dims3Options (some 2) emptyBackend).result =
        .error (.searchError
          "Unexpected error during search: Expected 2 dimensions but got 3" none)
  ∧ validateEmbeddingDimensions (JSVal.arr dims3Query) 2 =
        some (.embeddingError "Expected 2 dimensions but got 3" .dimensionMismatch)
  ∧ (search dims3Options (some 2) emptyBackend).result ≠
        .error (.embeddingError "Expected 2 dimensions but got 3"
          .dimensionMismatch) := by
  refine ⟨?_, ?_, ?_⟩ <;> decide

/-- **C4 (amended)**: every validation failure short-circuits — the backend
RPC is never dispatched and no attempt is made.  The missing/empty-query and
all-zero-weights `ValidationError`s are raised unchanged, while a
dimension-validation `EmbeddingError` is wrapped into a fresh `SearchError`
("Unexpected error during ... search: ...") before reaching the caller. -/
theorem search_validation_short_circuit (options : SearchOptions)
    (woptions : WeightedSearchOptions) (expectedDimensions : Option ℕ)
    (backend : ℕ → RpcReply) :
    ((options.queryEmbedding = none ∨ options.queryEmbedding = some []) →
      (search options expectedDimensions backend).result =
          .error (.validationError "Query embedding is required" "queryEmbedding") ∧
      (search options expectedDimensions backend).dispatched = none ∧
      (search options expectedDimensions backend).rpcAttempts = 0)
  ∧ ((woptions.queryEmbedding = none ∨ woptions.queryEmbedding = some []) →
      (searchWeighted woptions expectedDimensions backend).result =
          .error (.validationError "Query embedding is required" "queryEmbedding") ∧
      (searchWeighted woptions expectedDimensions backend).dispatched = none ∧
      (searchWeighted woptions expectedDimensions backend).rpcAttempts = 0)
  ∧ (∀ q n m c, options.queryEmbedding = some q → q ≠ [] →
      effectiveDims expectedDimensions = some n →
      validateEmbeddingDimensions (JSVal.arr q) n = some (.embeddingError m c) →
      (search options expectedDimensions backend).result =
          .error (.searchError ("Unexpected error during search: " ++ m) none) ∧
      (search options expectedDimensions backend).dispatched = none ∧
      (search options expectedDimensions backend).rpcAttempts = 0)
  ∧ (∀ q n m c, woptions.queryEmbedding = some q → q ≠ [] →
      effectiveDims expectedDimensions = some n →
      weightedDimCheck woptions q n = some (.embeddingError m c) →
      (searchWeighted woptions expectedDimensions backend).result =
          .error (.searchError ("Unexpected error during weighted search: " ++ m) none) ∧
      (searchWeighted woptions expectedDimensions backend).dispatched = none ∧
      (searchWeighted woptions expectedDimensions backend).rpcAttempts = 0)
  ∧ (∀ q, woptions.queryEmbedding = some q → q ≠ [] →
      (∀ n, effectiveDims expectedDimensions = some n →
        weightedDimCheck woptions q n = none) →
      totalWeightOf woptions = 0 →
      (searchWeighted woptions expectedDimensions backend).result =
          .error (.validationError "Weights cannot all be zero" "weights") ∧
      (searchWeighted woptions expectedDimensions backend).dispatched = none ∧
      (searchWeighted woptions expectedDimensions backend).rpcAttempts = 0) :=
  ⟨fun h => search_missing_query options expectedDimensions backend h,
   fun h => searchWeighted_missing_query woptions expectedDimensions backend h,
   fun q n m c hq hlen hdim hval =>
     search_dim_fail options expectedDimensions backend q n m c hq hlen hdim hval,
   fun q n m c hq hlen hdim hval =>
     searchWeighted_dim_fail woptions expectedDimensions backend q n m c hq hlen hdim hval,
   fun q hq hlen hdim ht =>
     searchWeighted_zero_total woptions expectedDimensions backend q hq hlen hdim ht⟩

/-- Witness for C4 (amended): a missing query vector short-circuits with the
unchanged `ValidationError` and zero RPC attempts. -/
theorem search_validation_short_circuit_witness :
    (search noQueryOptions none emptyBackend).result =
        .error (.validationError "Query embedding is required" "queryEmbedding")
  ∧ (search noQueryOptions none emptyBackend).dispatched = none
  ∧ (search noQueryOptions none emptyBackend).rpcAttempts = 0 :=
  (search_validation_short_circuit noQueryOptions baseWeightedOptions none
    emptyBackend).1 (Or.inl rfl)

/-- Counterexample to **C6** as stated: with raw weights main = 50 and
section2 = 50 and the other two slots unset, the unset slots default to 0.25,
making the total 100.5, so the dispatched main weight is 100/201 — not 0.5 —
and the dispatched section-1 weight is 1/402 — not 0. -/
theorem searchWeighted_fifty_fifty_defaults :
    (searchWeighted wFiftyOptions none emptyBackend).dispatched.map
        (fun p => p.weight_main) = some (100/201)
  ∧ (100/201 : ℚ) ≠ 1/2
  ∧ (searchWeighted wFiftyOptions none emptyBackend).dispatched.map
        (fun p => p.weight_section_1) = some (1/402)
  ∧ (1/402 : ℚ) ≠ 0 := by
  have htot : totalWeightOf wFiftyOptions = 201/2 := by
    norm_num [totalWeightOf, providedWeightMain, providedWeightSection1,
      providedWeightSection2, providedWeightSection3, jsCoalesce, wFiftyOptions,
      baseWeightedOptions]
  have htr : normalizeTriggered wFiftyOptions := by
    unfold normalizeTriggered; rw [htot]; norm_num [lt_abs]
  have hd := searchWeighted_dispatch_success wFiftyOptions none emptyBackend q1
    rfl (by simp [q1]) (fun n hn => by simp [effectiveDims] at hn)
    (by rw [htot]; norm_num)
  refine ⟨?_, by norm_num, ?_, by norm_num⟩
  · rw [hd]
    simp only [Option.map_some', Option.some.injEq, mkWeightedParams,
      dispatchedWeightMain, if_pos htr, htot]
    norm_num [providedWeightMain, jsCoalesce, wFiftyOptions, baseWeightedOptions]
  · rw [hd]
    simp only [Option.map_some', Option.some.injEq, mkWeightedParams,
      dispatchedWeightSection1, if_pos htr, htot]
    norm_num [providedWeightSection1, jsCoalesce, wFiftyOptions,
      baseWeightedOptions]

/-- **C6 (amended)**: raw weights main = 50 and section2 = 50 with the other
two slots unset dispatch weights (100/201, 1/402, 100/201, 1/402), because an
unset weight defaults to 0.25 before normalization; the scenario's claimed
(0.5, 0, 0.5, 0) is dispatched when the other two weights are explicitly 0. -/
theorem searchWeighted_fifty_fifty_dispatch :
    (searchWeighted wFiftyOptions none emptyBackend).dispatched.map
        (fun p => (p.weight_main, p.weight_section_1, p.weight_section_2,
          p.weight_section_3)) = some (100/201, 1/402, 100/201, 1/402)
  ∧ (searchWeighted wFiftyZeroOptions none emptyBackend).dispatched.map
        (fun p => (p.weight_main, p.weight_section_1, p.weight_section_2,
          p.weight_section_3)) = some (1/2, 0, 1/2, 0) := by
  have htotA : totalWeightOf wFiftyOptions = 201/2 := by
    norm_num [totalWeightOf, providedWeightMain, providedWeightSection1,
      providedWeightSection2, providedWeightSection3, jsCoalesce, wFiftyOptions,
      baseWeightedOptions]
  have htrA : normalizeTriggered wFiftyOptions := by
    unfold normalizeTriggered; rw [htotA]; norm_num [lt_abs]
  have hdA := searchWeighted_dispatch_success wFiftyOptions none emptyBackend q1
    rfl (by simp [q1]) (fun n hn => by simp [effectiveDims] at hn)
    (by rw [htotA]; norm_num)
  have htotB : totalWeightOf wFiftyZeroOptions = 100 := by
    norm_num [totalWeightOf, providedWeightMain, providedWeightSection1,
      providedWeightSection2, providedWeightSection3, jsCoalesce,
      wFiftyZeroOptions, baseWeightedOptions]
  have htrB : normalizeTriggered wFiftyZeroOptions := by
    unfold normalizeTriggered; rw [htotB]; norm_num [lt_abs]
  have hdB := searchWeighted_dispatch_success wFiftyZeroOptions none emptyBackend q1
    rfl (by simp [q1]) (fun n hn => by simp [effectiveDims] at hn)
    (by rw [htotB]; norm_num)
  constructor
  · rw [hdA]
    simp only [Option.map_some', Option.some.injEq, mkWeightedParams,
      dispatchedWeightMain, dispatchedWeightSection1, dispatchedWeightSection2,
      dispatchedWeightSection3, if_pos htrA, htotA, Prod.mk.injEq]
    norm_num [providedWeightMain, providedWeightSection1, providedWeightSection2,
      providedWeightSection3, jsCoalesce, wFiftyOptions, baseWeightedOptions]
  · rw [hdB]
    simp only [Option.map_some', Option.some.injEq, mkWeightedParams,
      dispatchedWeightMain, dispatchedWeightSection1, dispatchedWeightSection2,
      dispatchedWeightSection3, if_pos htrB, htotB, Prod.mk.injEq]
    norm_num [providedWeightMain, providedWeightSection1, providedWeightSection2,
      providedWeightSection3, jsCoalesce, wFiftyZeroOptions, baseWeightedOptions]

/-- **C8**: when the effective weight total is within 0.01 of 1.0, the
dispatched weights are exactly the effective input weights, unchanged — no
rescaling — so normalizing an already-normalized weight vector returns it
unchanged. -/
theorem searchWeighted_weights_idempotent (options : WeightedSearchOptions)
    (expectedDimensions : Option ℕ) (backend : ℕ → RpcReply)
    (htol : |totalWeightOf options - 1| ≤ 1/100) :
    ∀ p, (searchWeighted options expectedDimensions backend).dispatched = some p →
      p.weight_main = providedWeightMain options ∧
      p.weight_section_1 = providedWeightSection1 options ∧
      p.weight_section_2 = providedWeightSection2 options ∧
      p.weight_section_3 = providedWeightSection3 options := by
  intro p hp
  obtain ⟨ht, q, hq, rfl⟩ :=
    searchWeighted_dispatched_eq options expectedDimensions backend p hp
  have hn : ¬ normalizeTriggered options := by
    unfold normalizeTriggered; exact not_lt.mpr htol
  refine ⟨?_, ?_, ?_, ?_⟩ <;>
    simp only [mkWeightedParams, dispatchedWeightMain, dispatchedWeightSection1,
      dispatchedWeightSection2, dispatchedWeightSection3, if_neg hn]

/-- Witness for C8: default weights (0.25 each, total exactly 1.0) are
dispatched unchanged. -/
theorem searchWeighted_weights_idempotent_witness :
    (mkWeightedParams baseWeightedOptions q1).weight_main = 1/4
  ∧ (mkWeightedParams baseWeightedOptions q1).weight_section_1 = 1/4
  ∧ (mkWeightedParams baseWeightedOptions q1).weight_section_2 = 1/4
  ∧ (mkWeightedParams baseWeightedOptions q1).weight_section_3 = 1/4 := by
  have htot : totalWeightOf baseWeightedOptions = 1 := by
    norm_num [totalWeightOf, providedWeightMain, providedWeightSection1,
      providedWeightSection2, providedWeightSection3, jsCoalesce,
      baseWeightedOptions]
  have hd := searchWeighted_dispatch_success baseWeightedOptions none emptyBackend q1
    rfl (by simp [q1]) (fun n hn => by simp [effectiveDims] at hn)
    (by rw [htot]; norm_num)
  have h := searchWeighted_weights_idempotent baseWeightedOptions none emptyBackend
    (by rw [htot]; norm_num [abs_le]) (mkWeightedParams baseWeightedOptions q1) hd
  refine ⟨h.1.trans ?_, h.2.1.trans ?_, h.2.2.1.trans ?_, h.2.2.2.trans ?_⟩ <;>
    simp [providedWeightMain, providedWeightSection1, providedWeightSection2,
      providedWeightSection3, jsCoalesce, baseWeightedOptions]

/-- **C10**: in the parameters sent to the backend, a caller-supplied
matchThreshold of exactly 0 is replaced by the default 0.5 and a matchCount of
0 by the default 10, for single-vector and weighted search alike — an explicit
zero is indistinguishable from an unset value; unlike the weights, where an
explicit 0 is preserved (and an unset weight dispatches a nonzero weight). -/
theorem zero_options_use_defaults (options : SearchOptions)
    (woptions : WeightedSearchOptions) (expectedDimensions : Option ℕ)
    (backend : ℕ → RpcReply) :
    (∀ p, (search options expectedDimensions backend).dispatched = some p →
      ((options.matchThreshold = some 0 ∨ options.matchThreshold = none) →
        p.match_threshold = 1/2) ∧
      ((options.matchCount = some 0 ∨ options.matchCount = none) →
        p.match_count = 10))
  ∧ (∀ p, (searchWeighted woptions expectedDimensions backend).dispatched = some p →
      ((woptions.matchThreshold = some 0 ∨ woptions.matchThreshold = none) →
        p.match_threshold = 1/2) ∧
      ((woptions.matchCount = some 0 ∨ woptions.matchCount = none) →
        p.match_count = 10) ∧
      (woptions.weightMain = some 0 → p.weight_main = 0) ∧
      (woptions.weightMain = none → p.weight_main ≠ 0)) := by
  constructor
  · intro p hp
    obtain ⟨q, hq, rfl⟩ := search_dispatched_eq options expectedDimensions backend p hp
    constructor
    · rintro (h | h) <;> simp [mkSearchParams, jsOr, h]
    · rintro (h | h) <;> simp [mkSearchParams, jsOr, h]
  · intro p hp
    obtain ⟨ht, q, hq, rfl⟩ :=
      searchWeighted_dispatched_eq woptions expectedDimensions backend p hp
    refine ⟨?_, ?_, ?_, ?_⟩
    · rintro (h | h) <;> simp [mkWeightedParams, jsOr, h]
    · rintro (h | h) <;> simp [mkWeightedParams, jsOr, h]
    · intro h
      simp [mkWeightedParams, dispatchedWeightMain, providedWeightMain, jsCoalesce, h]
    · intro h
      simp only [mkWeightedParams, dispatchedWeightMain, providedWeightMain,
        jsCoalesce, h, Option.getD_none]
      split
      · exact div_ne_zero (by norm_num) ht
      · norm_num

/-- Witness for C10: explicit zeros for threshold and count dispatch the
defaults 0.5 and 10 in both entry points, and an explicit 0 main weight is
dispatched as 0. -/
theorem zero_options_use_defaults_witness :
    (mkSearchParams zeroDefaultsOptions q1).match_threshold = 1/2
  ∧ (mkSearchParams zeroDefaultsOptions q1).match_count = 10
  ∧ (mkWeightedParams wExplicitZeroOptions q1).match_threshold = 1/2
  ∧ (mkWeightedParams wExplicitZeroOptions q1).match_count = 10
  ∧ (mkWeightedParams wExplicitZeroOptions q1).weight_main = 0 := by
  have hd1 := search_dispatch_success zeroDefaultsOptions none emptyBackend q1
    rfl (by simp [q1]) (fun n hn => by simp [effectiveDims] at hn)
  have htot : totalWeightOf wExplicitZeroOptions = 1 := by
    norm_num [totalWeightOf, providedWeightMain, providedWeightSection1,
      providedWeightSection2, providedWeightSection3, jsCoalesce,
      wExplicitZeroOptions, baseWeightedOptions]
  have hd2 := searchWeighted_dispatch_success wExplicitZeroOptions none emptyBackend q1
    rfl (by simp [q1]) (fun n hn => by simp [effectiveDims] at hn)
    (by rw [htot]; norm_num)
  have h1 := (zero_options_use_defaults zeroDefaultsOptions wExplicitZeroOptions
    none emptyBackend).1 (mkSearchParams zeroDefaultsOptions q1) hd1
  have h2 := (zero_options_use_defaults zeroDefaultsOptions wExplicitZeroOptions
    none emptyBackend).2 (mkWeightedParams wExplicitZeroOptions q1) hd2
  exact ⟨h1.1 (Or.inl rfl), h1.2 (Or.inl rfl), h2.1 (Or.inl rfl),
    h2.2.1 (Or.inl rfl), h2.2.2.1 rfl⟩

/-! ### Batch-insert lemmas -/

/-- The `insertBatch` loop produces exactly the spec-side chunked trace. -/
theorem insertBatchGo_eq_specTraceGo {D : Type} (b total : ℕ) :
    ∀ (fuel : ℕ) (l : List D) (completed : ℕ),
      insertBatchGo b total fuel l completed =
        specTraceGo total (chunksOfGo b fuel l) completed := by
  intro fuel
  induction fuel with
  | zero => intro l completed; cases l <;> rfl
  | succ f ih =>
    intro l completed
    cases l with
    | nil => rfl
    | cons d ds => simp [insertBatchGo, chunksOfGo, specTraceGo, ih]

theorem progressCalls_specTraceGo_cons {D : Type} (total : ℕ) (c : List D)
    (cs : List (List D)) (completed : ℕ) :
    progressCalls (specTraceGo total (c :: cs) completed) =
      (completed + c.length, total) ::
        progressCalls (specTraceGo total cs (completed + c.length)) := rfl

theorem progressCalls_specTraceGo_head {D : Type} (total : ℕ)
    (cs : List (List D)) (completed : ℕ) :
    (progressCalls (specTraceGo total cs completed)).head? =
      cs.head?.map (fun c => (completed + c.length, total)) := by
  cases cs <;> rfl

/-- With every chunk nonempty, the reported completed counts strictly
increase. -/
theorem progressCalls_chain {D : Type} (total : ℕ) :
    ∀ (cs : List (List D)) (completed : ℕ), (∀ c ∈ cs, c ≠ []) →
      List.Chain' (fun p q : ℕ × ℕ => p.1 < q.1)
        (progressCalls (specTraceGo total cs completed)) := by
  intro cs
  induction cs with
  | nil => intro completed _; simp [specTraceGo, progressCalls]
  | cons c cs ih =>
    intro completed hne
    rw [progressCalls_specTraceGo_cons, List.chain'_cons']
    refine ⟨?_, ih (completed + c.length)
      (fun y hy => hne y (List.mem_cons_of_mem c hy))⟩
    intro p hp
    rw [progressCalls_specTraceGo_head] at hp
    cases cs with
    | nil => simp at hp
    | cons c2 cs2 =>
      simp only [List.head?_cons, Option.map_some', Option.mem_def,
        Option.some.injEq] at hp
      subst hp
      have h2 : c2 ≠ [] := hne c2 (by simp)
      have hpos : 0 < c2.length := List.length_pos.mpr h2
      simp only
      omega

/-- Every progress call reports the same total. -/
theorem progressCalls_total {D : Type} (total : ℕ) :
    ∀ (cs : List (List D)) (completed : ℕ),
      ∀ p ∈ progressCalls (specTraceGo total cs completed), p.2 = total := by
  intro cs
  induction cs with
  | nil => intro completed p hp; simp [specTraceGo, progressCalls] at hp
  | cons c cs ih =>
    intro completed p hp
    rw [progressCalls_specTraceGo_cons] at hp
    rcases List.mem_cons.mp hp with rfl | hp'
    · rfl
    · exact ih _ p hp'

/-- The last progress call reports the cumulative length of all chunks. -/
theorem progressCalls_getLast {D : Type} (total : ℕ) :
    ∀ (cs : List (List D)) (completed : ℕ), cs ≠ [] →
      (progressCalls (specTraceGo total cs completed)).getLast? =
        some (completed + (cs.map List.length).sum, total) := by
  intro cs
  induction cs with
  | nil => intro completed h; exact absurd rfl h
  | cons c cs ih =>
    intro completed _
    cases cs with
    | nil => simp [progressCalls_specTraceGo_cons, specTraceGo, progressCalls]
    | cons c2 cs2 =>
      rw [progressCalls_specTraceGo_cons, progressCalls_specTraceGo_cons,
        List.getLast?_cons_cons, ← progressCalls_specTraceGo_cons,
        ih (completed + c.length) (by simp)]
      simp only [List.map_cons, List.sum_cons, Option.some.injEq, Prod.mk.injEq]
      exact ⟨by ring, trivial⟩

/-- With a positive chunk size every produced chunk is nonempty. -/
theorem chunksOfGo_ne_nil {D : Type} (b : ℕ) (hb : 0 < b) :
    ∀ (fuel : ℕ) (l : List D), ∀ c ∈ chunksOfGo b fuel l, c ≠ [] := by
  intro fuel
  induction fuel with
  | zero => intro l c hc; cases l <;> simp [chunksOfGo] at hc
  | succ f ih =>
    intro l c hc
    cases l with
    | nil => simp [chunksOfGo] at hc
    | cons d ds =>
      simp only [chunksOfGo, List.mem_cons] at hc
      rcases hc with rfl | hc'
      · cases b with
        | zero => omega
        | succ b2 => simp
      · exact ih _ c hc'

/-- With a positive chunk size the chunks concatenate back to the list. -/
theorem chunksOfGo_join {D : Type} (b : ℕ) (hb : 0 < b) :
    ∀ (fuel : ℕ) (l : List D), l.length ≤ fuel →
      (chunksOfGo b fuel l).join = l := by
  intro fuel
  induction fuel with
  | zero =>
    intro l hl
    have h0 : l = [] := List.length_eq_zero.mp (Nat.le_zero.mp hl)
    subst h0; rfl
  | succ f ih =>
    intro l hl
    cases l with
    | nil => rfl
    | cons d ds =>
      have hd : ((d :: ds).drop b).length ≤ f := by
        simp only [List.length_drop, List.length_cons] at hl ⊢
        omega
      simp only [chunksOfGo, List.join_cons, ih _ hd]
      exact List.take_append_drop b (d :: ds)

theorem chunksOf_length_sum {D : Type} (b : ℕ) (hb : 0 < b) (l : List D) :
    ((chunksOf b l).map List.length).sum = l.length := by
  have h := chunksOfGo_join b hb l.length l le_rfl
  calc ((chunksOf b l).map List.length).sum
      = (chunksOf b l).join.length := (List.length_join _).symm
    _ = l.length := by unfold chunksOf; rw [h]

theorem chunksOf_ne_nil_of_ne_nil {D : Type} (b : ℕ) (l : List D) (h : l ≠ []) :
    chunksOf b l ≠ [] := by
  cases l with
  | nil => exact absurd rfl h
  | cons d ds => simp [chunksOf, chunksOfGo]

set_option maxRecDepth 10000 in
/-- **C7**: for a batch insert (positive chunk size) in which every chunk
insert succeeds, the event trace equals the spec-side chunked trace — the
progress callback is invoked exactly once after each chunk's insertion with
(cumulative completed, total) — the completed counts strictly increase, the
final call reports (n, n), and inserting 250 documents with chunk size 100
produces the calls (100,250), (200,250), (250,250) in that order, each after
the corresponding chunk's insertion. -/
theorem insertBatch_progress_contract {D : Type} (docs : List D) (b : ℕ) (x : D)
    (hb : 0 < b) :
    insertBatch docs b = specBatchTrace b docs
  ∧ List.Chain' (fun p q : ℕ × ℕ => p.1 < q.1) (progressCalls (insertBatch docs b))
  ∧ (∀ p ∈ progressCalls (insertBatch docs b), p.2 = docs.length)
  ∧ (docs ≠ [] →
      (progressCalls (insertBatch docs b)).getLast? =
        some (docs.length, docs.length))
  ∧ progressCalls (insertBatch (List.replicate 250 x) 100) =
      [(100, 250), (200, 250), (250, 250)]
  ∧ insertBatch (List.replicate 250 x) 100 =
      [BatchEvent.insertChunk (List.replicate 100 x), BatchEvent.progress 100 250,
        BatchEvent.insertChunk (List.replicate 100 x), BatchEvent.progress 200 250,
        BatchEvent.insertChunk (List.replicate 50 x), BatchEvent.progress 250 250] := by
  have heq : insertBatch docs b = specBatchTrace b docs := by
    unfold insertBatch specBatchTrace chunksOf
    exact insertBatchGo_eq_specTraceGo b docs.length docs.length docs 0
  refine ⟨heq, ?_, ?_, ?_, ?_, ?_⟩
  · rw [heq]
    unfold specBatchTrace
    exact progressCalls_chain docs.length (chunksOf b docs) 0
      (chunksOfGo_ne_nil b hb docs.length docs)
  · rw [heq]
    unfold specBatchTrace
    exact progressCalls_total docs.length (chunksOf b docs) 0
  · intro hne
    rw [heq]
    unfold specBatchTrace
    rw [progressCalls_getLast docs.length (chunksOf b docs) 0
      (chunksOf_ne_nil_of_ne_nil b docs hne), chunksOf_length_sum b hb docs]
    simp
  · rfl
  · rfl

/-- Witness for C7: the 250-document, chunk-size-100 scenario. -/
theorem insertBatch_progress_contract_witness :
    progressCalls (insertBatch (List.replicate 250 (0 : ℕ)) 100) =
      [(100, 250), (200, 250), (250, 250)] :=
  (insertBatch_progress_contract (List.replicate 250 (0 : ℕ)) 100 0
    (by norm_num)).2.2.2.2.1

/-! ### `match_documents_weighted` lemmas -/

theorem mem_insertRowDesc (r : SearchRow) (l : List SearchRow) (y : SearchRow) :
    y ∈ insertRowDesc r l ↔ y = r ∨ y ∈ l := by
  induction l with
  | nil => simp [insertRowDesc]
  | cons x xs ih =>
    simp only [insertRowDesc]
    split
    · simp only [List.mem_cons]
    · simp only [List.mem_cons, ih]
      tauto

theorem pairwise_insertRowDesc (r : SearchRow) (l : List SearchRow)
    (h : l.Pairwise (fun a b => b.similarity ≤ a.similarity)) :
    (insertRowDesc r l).Pairwise (fun a b => b.similarity ≤ a.similarity) := by
  induction l with
  | nil => simp [insertRowDesc]
  | cons x xs ih =>
    rcases List.pairwise_cons.mp h with ⟨hx, hxs⟩
    simp only [insertRowDesc]
    split
    next hlt =>
      refine List.pairwise_cons.mpr ⟨?_, h⟩
      intro y hy
      rcases List.mem_cons.mp hy with rfl | hy2
      · exact le_of_lt hlt
      · exact le_trans (hx y hy2) (le_of_lt hlt)
    next hnlt =>
      refine List.pairwise_cons.mpr ⟨?_, ih hxs⟩
      intro y hy
      rcases (mem_insertRowDesc r xs y).mp hy with rfl | hy2
      · exact not_lt.mp hnlt
      · exact hx y hy2

/-- `ORDER BY similarity DESC`: the sort output is descending in
similarity. -/
theorem pairwise_sortRowsDesc (l : List SearchRow) :
    (sortRowsDesc l).Pairwise (fun a b => b.similarity ≤ a.similarity) := by
  induction l with
  | nil => simp [sortRowsDesc]
  | cons x xs ih => exact pairwise_insertRowDesc x (sortRowsDesc xs) ih

theorem filter_filter_bool {α : Type} (p q : α → Bool) (l : List α) :
    (l.filter p).filter q = l.filter (fun a => p a && q a) := by
  induction l with
  | nil => rfl
  | cons x xs ih =>
    by_cases hp : p x <;> by_cases hq : q x <;>
      simp [List.filter_cons, hp, hq, ih]

theorem filter_congr_bool {α : Type} (p q : α → Bool) (l : List α)
    (h : ∀ a ∈ l, p a = q a) : l.filter p = l.filter q := by
  induction l with
  | nil => rfl
  | cons x xs ih =>
    rw [List.filter_cons, List.filter_cons, h x (by simp),
      ih (fun a ha => h a (by simp [ha]))]

/-- The SQL aggregate (main slot via `COALESCE(1 - distance, 0) * weight`)
equals the spec-side slot-sum (contribution iff both sides present). -/
theorem codeAggregate_eq_specAggregate {V : Type} (dist : V → V → ℚ)
    (query_embedding : V) (query_section_1 query_section_2 query_section_3 : Option V)
    (weight_main weight_section_1 weight_section_2 weight_section_3 : ℚ)
    (d : DocumentRow V) :
    codeAggregate dist query_embedding query_section_1 query_section_2
      query_section_3 weight_main weight_section_1 weight_section_2
      weight_section_3 d =
    specAggregate dist query_embedding query_section_1 query_section_2
      query_section_3 weight_main weight_section_1 weight_section_2
      weight_section_3 d := by
  unfold codeAggregate specAggregate mainSlotTerm specSlotContribution
    sectionSlotTerm
  cases d.embedding <;> simp

/-- **C1**: the `match_documents_weighted` pipeline realizes the spec scoring
contract: each candidate's aggregate is the sum over the four slots of
`(1 - cosine distance) × weight` when both query vector and stored embedding
are present and 0 otherwise; the returned rows are exactly the candidates
whose aggregate meets the threshold and whose metadata contains the filter,
sorted by aggregate similarity descending and capped at the result count; a
slot absent on either side reports a null per-slot similarity. -/
theorem matchDocumentsWeighted_contract {V : Type} (dist : V → V → ℚ)
    (docs : List (DocumentRow V)) (query_embedding : V)
    (query_section_1 query_section_2 query_section_3 : Option V)
    (weight_main weight_section_1 weight_section_2 weight_section_3 : ℚ)
    (match_threshold : ℚ) (match_count : ℕ) (filter_metadata : Option Metadata) :
    (∀ d, codeAggregate dist query_embedding query_section_1 query_section_2
        query_section_3 weight_main weight_section_1 weight_section_2
        weight_section_3 d =
      specAggregate dist query_embedding query_section_1 query_section_2
        query_section_3 weight_main weight_section_1 weight_section_2
        weight_section_3 d)
  ∧ matchDocumentsWeighted dist docs query_embedding query_section_1
      query_section_2 query_section_3 weight_main weight_section_1
      weight_section_2 weight_section_3 match_threshold match_count
      filter_metadata =
    (sortRowsDesc ((docs.filter (fun d =>
        metaFilterPass filter_metadata d.metadata &&
        decide (match_threshold ≤ specAggregate dist query_embedding
          query_section_1 query_section_2 query_section_3 weight_main
          weight_section_1 weight_section_2 weight_section_3 d))).map
      (rowOf dist query_embedding query_section_1 query_section_2
        query_section_3 weight_main weight_section_1 weight_section_2
        weight_section_3))).take match_count
  ∧ (matchDocumentsWeighted dist docs query_embedding query_section_1
      query_section_2 query_section_3 weight_main weight_section_1
      weight_section_2 weight_section_3 match_threshold match_count
      filter_metadata).Pairwise (fun a b => b.similarity ≤ a.similarity)
  ∧ (matchDocumentsWeighted dist docs query_embedding query_section_1
      query_section_2 query_section_3 weight_main weight_section_1
      weight_section_2 weight_section_3 match_threshold match_count
      filter_metadata).length ≤ match_count
  ∧ (∀ d : DocumentRow V,
      (rowOf dist query_embedding query_section_1 query_section_2
        query_section_3 weight_main weight_section_1 weight_section_2
        weight_section_3 d).similarity =
        specAggregate dist query_embedding query_section_1 query_section_2
          query_section_3 weight_main weight_section_1 weight_section_2
          weight_section_3 d
    ∧ (query_section_1 = none ∨ d.embedding_section_1 = none →
        (rowOf dist query_embedding query_section_1 query_section_2
          query_section_3 weight_main weight_section_1 weight_section_2
          weight_section_3 d).similarity_section_1 = none)
    ∧ (query_section_2 = none ∨ d.embedding_section_2 = none →
        (rowOf dist query_embedding query_section_1 query_section_2
          query_section_3 weight_main weight_section_1 weight_section_2
          weight_section_3 d).similarity_section_2 = none)
    ∧ (query_section_3 = none ∨ d.embedding_section_3 = none →
        (rowOf dist query_embedding query_section_1 query_section_2
          query_section_3 weight_main weight_section_1 weight_section_2
          weight_section_3 d).similarity_section_3 = none)
    ∧ (d.embedding = none →
        (rowOf dist query_embedding query_section_1 query_section_2
          query_section_3 weight_main weight_section_1 weight_section_2
          weight_section_3 d).similarity_main = none)) := by
  have hagg := codeAggregate_eq_specAggregate dist query_embedding
    query_section_1 query_section_2 query_section_3 weight_main
    weight_section_1 weight_section_2 weight_section_3
  have hfil : (docs.filter (fun d =>
        metaFilterPass filter_metadata d.metadata)).filter (fun d =>
          decide (match_threshold ≤ codeAggregate dist query_embedding
            query_section_1 query_section_2 query_section_3 weight_main
            weight_section_1 weight_section_2 weight_section_3 d)) =
      docs.filter (fun d => metaFilterPass filter_metadata d.metadata &&
        decide (match_threshold ≤ specAggregate dist query_embedding
          query_section_1 query_section_2 query_section_3 weight_main
          weight_section_1 weight_section_2 weight_section_3 d)) := by
    rw [filter_filter_bool]
    exact filter_congr_bool _ _ docs (fun d _ => by rw [hagg d])
  refine ⟨hagg, ?_, ?_, ?_, ?_⟩
  · simp only [matchDocumentsWeighted]
    rw [hfil]
  · simp only [matchDocumentsWeighted]
    exact List.Pairwise.sublist (List.take_sublist _ _) (pairwise_sortRowsDesc _)
  · simp only [matchDocumentsWeighted]
    exact List.length_take_le _ _
  · intro d
    refine ⟨hagg d, ?_, ?_, ?_, ?_⟩
    · rintro (h | h)
      · simp [rowOf, sectionSimilarity, h]
      · cases hq : query_section_1 <;> simp [rowOf, sectionSimilarity, h, hq]
    · rintro (h | h)
      · simp [rowOf, sectionSimilarity, h]
      · cases hq : query_section_2 <;> simp [rowOf, sectionSimilarity, h, hq]
    · rintro (h | h)
      · simp [rowOf, sectionSimilarity, h]
      · cases hq : query_section_3 <;> simp [rowOf, sectionSimilarity, h, hq]
    · intro h
      simp [rowOf, h]

/-- Witness for C1: a candidate lacking the section-1 embedding while the
query supplies one reports a null section-1 similarity. -/
theorem matchDocumentsWeighted_contract_witness :
    (rowOf (fun _ _ : ℕ => 0) 4 (some 3) none none 1 0 0 0
      ⟨1, "a", [], some 5, none, none, none⟩).similarity_section_1 = none :=
  ((matchDocumentsWeighted_contract (fun _ _ : ℕ => 0) [] 4 (some 3) none none
      1 0 0 0 0 0 none).2.2.2.2
    ⟨1, "a", [], some 5, none, none, none⟩).2.1 (Or.inr rfl)

end VectorSearch
